import Mathlib

/-!
# Verification of the timetable_ga frontend (`frontend/src/main.js`)

A shallow embedding of the manual-entry, validation, serialization and
rendering logic of `frontend/src/main.js`, together with proofs of the
behavioural claims about it.  Input field values are modelled as the raw
strings held by the DOM inputs; each table is a list of row records.
-/

namespace TimetableGA

/-- JS truthiness of a string: the empty string is falsy, everything else
truthy (used to embed `s || dflt` on strings). -/
def jsOr (s dflt : String) : String := if s = "" then dflt else s

/-- Numeric value of a decimal digit character. -/
def digitVal (c : Char) : Nat := c.toNat - 48

/-- Numeric value of a digit string. -/
def natOfDigits (cs : List Char) : Nat :=
  cs.foldl (fun a c => a * 10 + digitVal c) 0

/-- Embeds `timeToMinutes` (main.js:383-390): a string matching
`/^(\d{1,2}):(\d{2})$/` is mapped to `hh * 60 + mm`; anything else to
`null` (`none`). -/
def timeToMinutes (t : String) : Option Nat :=
  match t.data with
  | [h1, c, m1, m2] =>
      if h1.isDigit ∧ c = ':' ∧ m1.isDigit ∧ m2.isDigit then
        some (digitVal h1 * 60 + (digitVal m1 * 10 + digitVal m2))
      else none
  | [h1, h2, c, m1, m2] =>
      if h1.isDigit ∧ h2.isDigit ∧ c = ':' ∧ m1.isDigit ∧ m2.isDigit then
        some ((digitVal h1 * 10 + digitVal h2) * 60 + (digitVal m1 * 10 + digitVal m2))
      else none
  | _ => none

/-- Longest prefix of decimal digits of a character list, as a number,
with the remaining characters (helper for `jsParseInt`). -/
def takeDigits : List Char → Nat → Option Nat → Option Nat
  | [], _, acc => acc
  | c :: cs, base, acc =>
      if c.isDigit then takeDigits cs base (some ((acc.getD 0) * base + digitVal c))
      else acc

/-- Value of a hexadecimal digit character, `none` when not one. -/
def hexVal (c : Char) : Option Nat :=
  if c.isDigit then some (digitVal c)
  else if 'a' ≤ c ∧ c ≤ 'f' then some (c.toNat - 97 + 10)
  else if 'A' ≤ c ∧ c ≤ 'F' then some (c.toNat - 65 + 10)
  else none

/-- Longest prefix of hexadecimal digits, as a number. -/
def takeHexDigits : List Char → Option Nat → Option Nat
  | [], acc => acc
  | c :: cs, acc =>
      match hexVal c with
      | some v => takeHexDigits cs (some ((acc.getD 0) * 16 + v))
      | none => acc

/-- Embeds JavaScript `parseInt(s)` (no radix argument) on an
already-trimmed string: optional sign, then either a `0x`/`0X` hexadecimal
prefix or a longest decimal-digit prefix; `none` models `NaN`. -/
def jsParseInt (s : String) : Option Int :=
  let core : List Char → Option Nat := fun cs =>
    match cs with
    | '0' :: 'x' :: rest => takeHexDigits rest none
    | '0' :: 'X' :: rest => takeHexDigits rest none
    | _ => takeDigits cs 10 none
  match s.data with
  | '-' :: rest => (core rest).map (fun n => -(n : Int))
  | '+' :: rest => (core rest).map (fun n => (n : Int))
  | cs => (core cs).map (fun n => (n : Int))

/-- Splits a character list at every occurrence of `sep` (the groups
between separators, in order; empty groups kept). -/
def splitOnChar (sep : Char) : List Char → List (List Char)
  | [] => [[]]
  | c :: rest =>
    match splitOnChar sep rest with
    | [] => [[]]
    | g :: gs => if c = sep then [] :: g :: gs else (c :: g) :: gs

/-- `true` exactly when the string matches `/^\d+-\d+-\d+$/`
(the L-T-P format check at main.js:324): exactly two dashes separating
three non-empty runs of decimal digits. -/
def ltpFormatOk (s : String) : Bool :=
  match splitOnChar '-' s.data with
  | [a, b, c] =>
      !a.isEmpty && !b.isEmpty && !c.isEmpty &&
      a.all Char.isDigit && b.all Char.isDigit && c.all Char.isDigit
  | _ => false

/-- JS whitespace test for the characters relevant to `String.prototype.trim`. -/
def isWhitespaceChar (c : Char) : Bool :=
  c = ' ' || c = '\t' || c = '\n' || c = '\r' || c = '\x0b' || c = '\x0c'

/-- Embeds JavaScript `s.trim()`: drops whitespace at both ends. -/
def jsTrim (s : String) : String :=
  ⟨((s.data.dropWhile isWhitespaceChar).reverse.dropWhile isWhitespaceChar).reverse⟩

/-- Embeds JavaScript `s.toLowerCase()` (ASCII case folding suffices for
the day names and ids this UI handles). -/
def jsToLower (s : String) : String := ⟨s.data.map Char.toLower⟩

/-- One row of the manual faculty table: the raw values of its two inputs. -/
structure FacultyRow where
  id : String
  name : String
deriving DecidableEq, Repr

/-- One row of the manual rooms table. -/
structure RoomRow where
  id : String
  type_ : String
  capacity : String
deriving DecidableEq, Repr

/-- One row of the manual courses table: raw values of its seven inputs. -/
structure CourseRow where
  code : String
  ltp : String
  facultyId : String
  studentGroup : String
  studentCount : String
  lecRoomType : String
  labRoomType : String
deriving DecidableEq, Repr

/-- One row of the manual slots table: day, start, end inputs and the
type select. -/
structure SlotRow where
  day : String
  start : String
  end_ : String
  type_ : String
deriving DecidableEq, Repr

/-- The whole manual-entry area: the four tables. -/
structure ManualState where
  faculty : List FacultyRow
  rooms : List RoomRow
  courses : List CourseRow
  slots : List SlotRow
deriving DecidableEq, Repr

/-- `input-error` flags set on a faculty row's inputs. -/
structure FacultyMarks where
  idErr : Bool
  nameErr : Bool
deriving DecidableEq, Repr

/-- `input-error` flags set on a room row's inputs. -/
structure RoomMarks where
  idErr : Bool
  typeErr : Bool
  capacityErr : Bool
deriving DecidableEq, Repr

/-- `input-error` flags set on a course row's inputs. -/
structure CourseMarks where
  codeErr : Bool
  ltpErr : Bool
  facultyIdErr : Bool
  studentGroupErr : Bool
  studentCountErr : Bool
  lecRoomTypeErr : Bool
  labRoomTypeErr : Bool
deriving DecidableEq, Repr

/-- `input-error` flags set on a slot row's inputs. -/
structure SlotMarks where
  dayErr : Bool
  startErr : Bool
  endErr : Bool
deriving DecidableEq, Repr

/-- All `input-error` flags across the manual area after a validation pass. -/
structure Marks where
  faculty : List FacultyMarks
  rooms : List RoomMarks
  courses : List CourseMarks
  slots : List SlotMarks
deriving DecidableEq, Repr

/-- The duplicate test `rows.some((o, j) => j !== i && trim(o.first) === v)`
used for faculty ids, room ids and course codes: `vals` is the list of
trimmed first-input values of all rows. -/
def dupAt (vals : List String) (i : Nat) (v : String) : Bool :=
  vals.enum.any (fun p => p.1 != i && p.2 == v)

/-- The capacity / student-count test `!v || parseInt(v) < 1` on an
already-trimmed value `v` (`parseInt` returning `NaN` compares false). -/
def countErrOf (v : String) : Bool :=
  v == "" ||
    (match jsParseInt v with
     | some n => decide (n < 1)
     | none => false)

/-- The set of faculty ids collected while validating the faculty table
(main.js:275): trimmed, non-empty ids of every row. -/
def facultyIdsOf (s : ManualState) : List String :=
  s.faculty.filterMap (fun r =>
    let id := jsTrim r.id
    if id = "" then none else some id)

/-- The set of room types collected while validating the rooms table
(main.js:295): trimmed, non-empty types of every row. -/
def roomTypesOf (s : ManualState) : List String :=
  s.rooms.filterMap (fun r =>
    let t := jsTrim r.type_
    if t = "" then none else some t)

/-- Marks computed for the faculty table (main.js:262-276). -/
def validateFacultyRows (rows : List FacultyRow) : List FacultyMarks :=
  let ids := rows.map (fun r => jsTrim r.id)
  rows.enum.map (fun p =>
    let id := jsTrim p.2.id
    { idErr := id == "" || dupAt ids p.1 id
      nameErr := jsTrim p.2.name == "" })

/-- Marks computed for the rooms table (main.js:279-296). -/
def validateRoomRows (rows : List RoomRow) : List RoomMarks :=
  let ids := rows.map (fun r => jsTrim r.id)
  rows.enum.map (fun p =>
    let id := jsTrim p.2.id
    { idErr := id == "" || dupAt ids p.1 id
      typeErr := jsTrim p.2.type_ == ""
      capacityErr := countErrOf (jsTrim p.2.capacity) })

/-- Marks computed for the courses table (main.js:299-340), given the
faculty-id and room-type sets collected from the other two tables. -/
def validateCourseRows (facultyIds roomTypes : List String)
    (rows : List CourseRow) : List CourseMarks :=
  let codes := rows.map (fun r => jsTrim r.code)
  rows.enum.map (fun p =>
    let code := jsTrim p.2.code
    let ltp := jsTrim p.2.ltp
    let fid := jsTrim p.2.facultyId
    let lec := jsTrim p.2.lecRoomType
    let lab := jsTrim p.2.labRoomType
    { codeErr := code == "" || dupAt codes p.1 code
      ltpErr := ltp == "" || !ltpFormatOk ltp
      facultyIdErr := fid == "" || !(facultyIds.contains fid)
      studentGroupErr := jsTrim p.2.studentGroup == ""
      studentCountErr := countErrOf (jsTrim p.2.studentCount)
      lecRoomTypeErr := lec == "" || !(roomTypes.contains lec)
      labRoomTypeErr := lab == "" || !(roomTypes.contains lab) })

/-- Marks computed for one slot row (main.js:343-369): Class rows check
day / start / end (with lexicographic `start >= end` as in JS string
comparison); other types clear all three flags. -/
def slotRowMarks (r : SlotRow) : SlotMarks :=
  let t := jsTrim (jsOr r.type_ "Class")
  if t = "Class" then
    let start := jsTrim r.start
    let stop := jsTrim r.end_
    let misordered := start != "" && stop != "" && !(decide (start < stop))
    { dayErr := jsTrim r.day == ""
      startErr := start == "" || misordered
      endErr := stop == "" || misordered }
  else
    { dayErr := false, startErr := false, endErr := false }

/-- Marks computed for the slots table. -/
def validateSlotRows (rows : List SlotRow) : List SlotMarks :=
  rows.map slotRowMarks

/-- Embeds one call of `realtimeValidate` (main.js:256-370): recomputes
the `input-error` class of every input of every row of all four tables. -/
def realtimeValidate (s : ManualState) : Marks :=
  { faculty := validateFacultyRows s.faculty
    rooms := validateRoomRows s.rooms
    courses := validateCourseRows (facultyIdsOf s) (roomTypesOf s) s.courses
    slots := validateSlotRows s.slots }

/-- `true` when some input of a faculty row carries `input-error`. -/
def facultyMarked (m : FacultyMarks) : Bool := m.idErr || m.nameErr

/-- `true` when some input of a room row carries `input-error`. -/
def roomMarked (m : RoomMarks) : Bool := m.idErr || m.typeErr || m.capacityErr

/-- `true` when some input of a course row carries `input-error`. -/
def courseMarked (m : CourseMarks) : Bool :=
  m.codeErr || m.ltpErr || m.facultyIdErr || m.studentGroupErr ||
    m.studentCountErr || m.lecRoomTypeErr || m.labRoomTypeErr

/-- `true` when some input of a slot row carries `input-error`. -/
def slotMarked (m : SlotMarks) : Bool := m.dayErr || m.startErr || m.endErr

/-- The `document.querySelector('#manualArea .input-error')` test: some
input somewhere in the manual area carries the error class. -/
def hasAnyError (m : Marks) : Bool :=
  m.faculty.any facultyMarked || m.rooms.any roomMarked ||
    m.courses.any courseMarked || m.slots.any slotMarked

/-- Embeds `validateManualData` (main.js:372-380): re-runs
`realtimeValidate`, then returns `false` exactly when some field is
marked. -/
def validateManualData (s : ManualState) : Bool :=
  !hasAnyError (realtimeValidate s)

/-- Embeds the row record built by `addRoomRow` (main.js:109-123): the
capacity input is rendered with `value="${capacity || 1}"`. -/
def addRoomRow (id type_ capacity : String) : RoomRow :=
  { id := id, type_ := type_, capacity := jsOr capacity "1" }

/-- The slot row appended by `addSlotRow` for a holiday: the given day,
empty start and end, type `Holiday` (main.js:205). -/
def holidayRow (day : String) : SlotRow :=
  { day := day, start := "", end_ := "", type_ := "Holiday" }

/-- Embeds `addHolidayForDay` (main.js:199-207): removes every row whose
trimmed Day lowercases to the given day lowercased, then appends one
Holiday row for that day. -/
def addHolidayForDay (day : String) (rows : List SlotRow) : List SlotRow :=
  rows.filter (fun r => !(jsToLower (jsTrim r.day) == jsToLower day)) ++ [holidayRow day]

/-- Claim-side reading of an L-T-P value, following the spec's invariant
"session counts are non-negative integers; at least one session type >
0": the three parsed counts, defined when the digits-digits-digits format
matches. -/
def ltpCounts (s : String) : Option (Nat × Nat × Nat) :=
  match splitOnChar '-' s.data with
  | [a, b, c] =>
      if !a.isEmpty && !b.isEmpty && !c.isEmpty &&
          a.all Char.isDigit && b.all Char.isDigit && c.all Char.isDigit then
        some (natOfDigits a, natOfDigits b, natOfDigits c)
      else none
  | _ => none

/-- One assignment record as returned by the backend and consumed by
`renderTimetable` / `downloadCsv`; every field is carried as a string. -/
structure Assignment where
  day : String
  slot_index : String
  start_time : String
  end_time : String
  course : String
  class_type : String
  student_group : String
  faculty : String
  room : String
deriving DecidableEq, Repr

/-- The comma-joined CSV line `downloadCsv` emits for one assignment
(main.js:843-853): the nine fields in declaration order. -/
def csvLine (a : Assignment) : String :=
  String.intercalate "," [a.day, a.slot_index, a.start_time, a.end_time,
    a.course, a.class_type, a.student_group, a.faculty, a.room]

/-- The list of CSV lines built by `downloadCsv` (main.js:841-854):
the header, then one line per assignment. -/
def downloadCsvLines (assignments : List Assignment) : List String :=
  String.intercalate "," ["day", "slot_index", "start_time", "end_time",
    "course", "class_type", "student_group", "faculty", "room"]
  :: assignments.map csvLine

/-- Embeds `downloadCsv` (main.js:841-859) up to the point where the CSV
text is placed into the blob: lines joined with a newline. -/
def downloadCsv (assignments : List Assignment) : String :=
  String.intercalate "\n" (downloadCsvLines assignments)

/-! ## serializeSlots (main.js:558-591) -/

/-- The per-day record pushed into `dayGroups` by `serializeSlots`:
trimmed start / end and the trimmed type (empty select value defaulting
to `Class`). -/
structure SlotBlock where
  start : String
  end_ : String
  type_ : String
deriving DecidableEq, Repr

/-- The block `serializeSlots` builds from one table row. -/
def slotBlockOf (r : SlotRow) : SlotBlock :=
  { start := jsTrim r.start, end_ := jsTrim r.end_, type_ := jsTrim (jsOr r.type_ "Class") }

/-- Day keys of `dayGroups` in insertion order: first occurrence of each
non-empty trimmed day. -/
def dayKeysInsertion (rows : List SlotRow) : List String :=
  rows.foldl (fun acc r =>
    let d := jsTrim r.day
    if d = "" ∨ d ∈ acc then acc else acc ++ [d]) []

/-- Whether a string is a canonical JS array-index key (`"0"`, `"1"`,
...): such keys are enumerated first, in ascending numeric order, by
`Object.keys`. -/
def isArrayIndexKey (cs : List Char) : Bool :=
  match cs with
  | [] => false
  | ['0'] => true
  | c :: rest =>
      c.isDigit && c ≠ '0' && rest.all Char.isDigit &&
        decide (natOfDigits (c :: rest) < 4294967295)

/-- Stable insertion of an element into a list ordered by a numeric key:
placed before the first element of strictly larger or equal key. -/
def insertByKey {α : Type} (key : α → Nat) (a : α) : List α → List α
  | [] => [a]
  | b :: l => if key a ≤ key b then a :: b :: l else b :: insertByKey key a l

/-- Stable sort by a numeric key (the behaviour guaranteed for
`Array.prototype.sort` with the comparator `key a - key b`). -/
def sortByKey {α : Type} (key : α → Nat) : List α → List α
  | [] => []
  | a :: l => insertByKey key a (sortByKey key l)

/-- `Object.keys` enumeration order: array-index-like keys first in
ascending numeric order, then the remaining keys in insertion order. -/
def jsKeyOrder (keys : List String) : List String :=
  sortByKey (fun k => natOfDigits k.data) (keys.filter (fun k => isArrayIndexKey k.data)) ++
    keys.filter (fun k => !isArrayIndexKey k.data)

/-- The day keys of `dayGroups` in the order `for (const day of
Object.keys(dayGroups))` visits them. -/
def dayKeys (rows : List SlotRow) : List String :=
  jsKeyOrder (dayKeysInsertion rows)

/-- The blocks pushed for one day, in table order (rows with an empty
trimmed day are skipped by the `if (!day) continue`). -/
def dayBlocks (rows : List SlotRow) (d : String) : List SlotBlock :=
  rows.filterMap (fun r => if jsTrim r.day = d then some (slotBlockOf r) else none)

/-- The sort key of the per-day sort: `timeToMinutes(start) ?? 0`. -/
def blockKey (b : SlotBlock) : Nat := (timeToMinutes b.start).getD 0

/-- The comma-separated fields of the line `serializeSlots` emits for the
block of index `i` of day `d`:
`` `${day.toLowerCase()}-${idx}`, day, idx, start, end, type || 'Class' ``. -/
def slotLineFields (d : String) (i : Nat) (b : SlotBlock) : List String :=
  [jsToLower d ++ "-" ++ Nat.repr i, d, Nat.repr i, b.start, b.end_, jsOr b.type_ "Class"]

/-- The fields of the lines emitted for one day: its blocks sorted by
start time, numbered `0, 1, 2, ...`. -/
def dayLineFields (rows : List SlotRow) (d : String) : List (List String) :=
  (sortByKey blockKey (dayBlocks rows d)).enum.map (fun p => slotLineFields d p.1 p.2)

/-- The fields of all data lines of `serializeSlots`, day by day in
`Object.keys` order. -/
def serializeSlotsDataFields (rows : List SlotRow) : List (List String) :=
  (dayKeys rows).flatMap (dayLineFields rows)

/-- The header fields named by the first line of `serializeSlots`. -/
def slotsHeaderFields : List String :=
  ["day", "slot_index", "start_time", "end_time", "type"]

/-- Embeds `serializeSlots` (main.js:558-591): `null` on an empty table,
otherwise the header line followed by the per-day numbered lines, joined
with newlines. -/
def serializeSlots (rows : List SlotRow) : Option String :=
  if rows.isEmpty then none
  else some (String.intercalate "\n"
    ("day,slot_index,start_time,end_time,type" ::
      (serializeSlotsDataFields rows).map (String.intercalate ",")))

/-! ## renderTimetable (main.js:772-839) -/

/-- Insertion-order deduplication: `[...new Set(xs)]`. -/
def jsUniq (xs : List String) : List String :=
  xs.foldl (fun acc d => if d ∈ acc then acc else acc ++ [d]) []

/-- Sort key of the day columns: position in Mon..Sun, `?? 99` otherwise. -/
def dayOrderKey (d : String) : Nat :=
  if d = "Mon" then 0 else if d = "Tue" then 1 else if d = "Wed" then 2
  else if d = "Thu" then 3 else if d = "Fri" then 4 else if d = "Sat" then 5
  else if d = "Sun" then 6 else 99

/-- The day rows of the rendered grid: unique days of the assignments,
sorted by weekday order. -/
def renderDays (assignments : List Assignment) : List String :=
  sortByKey dayOrderKey (jsUniq (assignments.map Assignment.day))

/-- The time columns of the rendered grid: unique `start_time`s, sorted
by `timeToMinutes ?? 0`. -/
def renderSlotTimes (assignments : List Assignment) : List String :=
  sortByKey (fun t => (timeToMinutes t).getD 0)
    (jsUniq (assignments.map Assignment.start_time))

/-- The `grid[day][time]` bucket: assignments pushed in list order by the
`assignments.forEach` loop whose guard `grid[a.day] && grid[a.day][a.start_time]`
always holds because the keys come from the assignments themselves. -/
def cellsFor (assignments : List Assignment) (d t : String) : List Assignment :=
  assignments.foldl (fun acc a =>
    if a.day = d ∧ a.start_time = t then acc ++ [a] else acc) []

/-- The `<td>` rendered for a non-empty cell: built from `cells[0]` only
(course, faculty and room of the first assignment in the bucket). -/
def cellHtml (a : Assignment) : String :=
  "<td class=\"p-2 border-l border-gray-200 slot-cell " ++
    (if a.class_type = "Lab" then "lab" else "") ++ "\">\n          <div class=\"font-semibold course-code\">" ++
    a.course ++ "</div>\n          <div class=\"text-xs text-gray-600 faculty\">" ++
    jsOr a.faculty "" ++ "</div>\n          <div class=\"text-xs text-gray-500 room\">" ++
    jsOr a.room "" ++ "</div>\n        </td>"

/-- The `<td>` rendered for an empty cell. -/
def emptyCellHtml : String :=
  "<td class=\"p-2 border-l border-gray-200 text-gray-400\">—</td>"

/-- The cell rendered at `(day, time)`: the first bucketed assignment if
any, otherwise the dash cell. -/
def renderCell (assignments : List Assignment) (d t : String) : String :=
  match cellsFor assignments d t with
  | [] => emptyCellHtml
  | a :: _ => cellHtml a

/-- One body row of the rendered table. -/
def renderRow (assignments : List Assignment) (d : String) : String :=
  "<tr class=\"border-b border-gray-200 bg-white\"><td class=\"p-2 font-medium\">" ++ d ++ "</td>" ++
    String.join ((renderSlotTimes assignments).map (renderCell assignments d)) ++ "</tr>"

/-- Embeds the HTML `renderTimetable` assembles for a non-empty
assignment list (main.js:808-834).  The source writes the corner header
with a backslash-T escape, which JavaScript string parsing collapses to
`DayTime`. -/
def renderTimetableHtml (assignments : List Assignment) : String :=
  "<table class=\"timetable-card min-w-full text-sm border-collapse border border-gray-200\">" ++
    "<thead class=\"bg-gray-50\"><tr class=\"text-left\"><th class=\"p-2 border-b border-gray-200\">DayTime</th>" ++
    String.join ((renderSlotTimes assignments).map
      (fun t => "<th class=\"p-2 border-b border-gray-200\">" ++ t ++ "</th>")) ++
    "</tr></thead><tbody>" ++
    String.join ((renderDays assignments).map (renderRow assignments)) ++
    "</tbody></table>"

/-! ## Concrete manual-entry states used to exercise the validators -/

/-- A small fully-populated, internally consistent manual state. -/
def stA : ManualState :=
  { faculty := [⟨"F1", "Ada"⟩]
    rooms := [⟨"R1", "LectureHall", "40"⟩]
    courses := [⟨"CS101", "3-0-2", "F1", "G1", "60", "LectureHall", "LectureHall"⟩]
    slots := [⟨"Mon", "09:00", "10:00", "Class"⟩] }

/-- Like `stA`, but the course declares the all-zero L-T-P `0-0-0`. -/
def stB : ManualState :=
  { stA with courses := [⟨"CS101", "0-0-0", "F1", "G1", "60", "LectureHall", "LectureHall"⟩] }

/-- Like `stA`, but the course references the unknown faculty id `F9`. -/
def stC : ManualState :=
  { stA with courses := [⟨"CS101", "3-0-2", "F9", "G1", "60", "LectureHall", "LectureHall"⟩] }

/-- Like `stA`, but the room declares capacity `0`. -/
def stD : ManualState :=
  { stA with rooms := [⟨"R1", "LectureHall", "0"⟩] }

end TimetableGA

namespace TimetableGA.GA

/-!
## The genetic-algorithm engine

Modelled from the spec: the backend search kernel (`backend/ga_solver.py`,
reachable only through the `/generate` endpoint the frontend calls) is not
part of the available sources.  The definitions below follow the spec's
component design: domain model (§3), chromosome encoding (§4.1), fitness
evaluator (§4.2), tournament selection / single-point crossover / mutation
(§4.3), the `Initializing → Evolving → Converged` population manager
(§4.4) and its stop conditions (§4.5), with the explicit seeded
pseudo-random source required by §9 threaded through every operator.
-/

/-- Modelled from the spec: a course as the kernel sees it — code, the
assigned faculty, student group and count, required sessions with their
room type (§3). -/
structure Course where
  code : String
  facultyId : String
  group : String
  sessions : Nat
  roomType : String
  students : Nat
deriving DecidableEq, Repr

/-- Modelled from the spec: a room with type tag and capacity (§3). -/
structure Room where
  id : String
  type_ : String
  capacity : Nat
deriving DecidableEq, Repr

/-- Modelled from the spec: a slot; only Class-typed slots are
assignable (§3). -/
structure Slot where
  day : String
  index : Nat
  assignable : Bool
deriving DecidableEq, Repr

/-- Modelled from the spec: the read-only domain model shared by the
whole run (§5). -/
structure DomainModel where
  courses : List Course
  rooms : List Room
  slots : List Slot
deriving DecidableEq, Repr

/-- Modelled from the spec: one gene — one required session of one
course, bound to a `(slot, room)` choice by index (§3). -/
structure Gene where
  course : Nat
  slot : Nat
  room : Nat
deriving DecidableEq, Repr

/-- A chromosome: the ordered gene list covering every required session. -/
abbrev Chromosome := List Gene

/-- Modelled from the spec: the engine's configuration inputs (§6). -/
structure GAConfig where
  popSize : Nat
  maxGen : Nat
  tournament : Nat
  crossoverPct : Nat
  mutationPct : Nat
  patience : Nat
  wFaculty : Nat
  wRoom : Nat
  wGroup : Nat
  wType : Nat
  wCapacity : Nat
  wSlot : Nat
deriving DecidableEq, Repr

/-- Modelled from the spec: the explicit pseudo-random source (§9) — a
64-bit linear congruential generator state transition. -/
def lcgNext (s : Nat) : Nat :=
  (6364136223846793005 * s + 1442695040888963407) % 18446744073709551616

/-- Draw a value below `n` (at least 1) and the successor RNG state. -/
def randBelow (s n : Nat) : Nat × Nat :=
  let s' := lcgNext s
  (s' % max n 1, s')

def defaultCourse : Course := ⟨"", "", "", 0, "", 0⟩
def defaultRoom : Room := ⟨"", "", 0⟩
def defaultSlot : Slot := ⟨"", 0, false⟩

def courseAt (dm : DomainModel) (i : Nat) : Course := dm.courses.getD i defaultCourse
def roomAt (dm : DomainModel) (i : Nat) : Room := dm.rooms.getD i defaultRoom
def slotAt (dm : DomainModel) (i : Nat) : Slot := dm.slots.getD i defaultSlot

/-- All `(slot, room)` index pairs. -/
def allPairs (dm : DomainModel) : List (Nat × Nat) :=
  (List.range dm.slots.length).flatMap (fun si =>
    (List.range dm.rooms.length).map (fun ri => (si, ri)))

/-- Modelled from the spec: the legal `(slot, room)` pairs of a course's
session — assignable slot, matching room type, sufficient capacity (§4.1). -/
def legalPairs (dm : DomainModel) (c : Course) : List (Nat × Nat) :=
  (allPairs dm).filter (fun p =>
    (slotAt dm p.1).assignable &&
    (roomAt dm p.2).type_ == c.roomType &&
    c.students ≤ (roomAt dm p.2).capacity)

/-- Modelled from the spec: a random legal pick, falling back to a
least-bad candidate among all pairs so the chromosome stays fixed-length
(§4.1). -/
def pickCandidate (dm : DomainModel) (c : Course) (s : Nat) : (Nat × Nat) × Nat :=
  let cands := if (legalPairs dm c).isEmpty then allPairs dm else legalPairs dm c
  let (i, s') := randBelow s cands.length
  (cands.getD i (0, 0), s')

/-- Genes of one course: one per required session, each independently
drawn. -/
def courseGenes (dm : DomainModel) (ci : Nat) : Nat → Nat → Chromosome × Nat
  | 0, s => ([], s)
  | n + 1, s =>
      let (p, s') := pickCandidate dm (courseAt dm ci) s
      let (rest, s'') := courseGenes dm ci n s'
      (⟨ci, p.1, p.2⟩ :: rest, s'')

/-- Modelled from the spec: chromosome initialization — every required
session of every course, in deterministic enumeration order (§4.1). -/
def initChromosome (dm : DomainModel) (s : Nat) : Chromosome × Nat :=
  dm.courses.enum.foldl (fun acc p =>
    let (genes, s') := courseGenes dm p.1 p.2.sessions acc.2
    (acc.1 ++ genes, s')) ([], s)

/-- N freshly initialized chromosomes. -/
def initPopulation (dm : DomainModel) : Nat → Nat → List Chromosome × Nat
  | 0, s => ([], s)
  | n + 1, s =>
      let (c, s') := initChromosome dm s
      let (rest, s'') := initPopulation dm n s'
      (c :: rest, s'')

/-- Collisions of a key list: one penalty per extra occupant of a key. -/
def collisions {α : Type} [DecidableEq α] (keys : List α) : Nat :=
  keys.length - keys.dedup.length

/-- Modelled from the spec: the fitness evaluator — a weighted sum of
double-booking, room-type, capacity and non-assignable-slot penalties;
`0` is a perfectly feasible timetable (§4.2). -/
def fitness (cfg : GAConfig) (dm : DomainModel) (chrom : Chromosome) : Nat :=
  cfg.wFaculty * collisions (chrom.map (fun g => ((courseAt dm g.course).facultyId, g.slot))) +
  cfg.wRoom * collisions (chrom.map (fun g => (g.room, g.slot))) +
  cfg.wGroup * collisions (chrom.map (fun g => ((courseAt dm g.course).group, g.slot))) +
  cfg.wType * chrom.countP (fun g => !((roomAt dm g.room).type_ == (courseAt dm g.course).roomType)) +
  cfg.wCapacity * chrom.countP (fun g => decide ((roomAt dm g.room).capacity < (courseAt dm g.course).students)) +
  cfg.wSlot * chrom.countP (fun g => !(slotAt dm g.slot).assignable)

/-- The lowest-penalty chromosome of a population with its penalty
(first of the ties). -/
def bestOf (cfg : GAConfig) (dm : DomainModel) : List Chromosome → Chromosome × Nat
  | [] => ([], 0)
  | c :: cs => cs.foldl (fun acc x =>
      let px := fitness cfg dm x
      if px < acc.2 then (x, px) else acc) (c, fitness cfg dm c)

/-- `k` distinct indices drawn from the available ones (tournament draw
without replacement, §4.3). -/
def drawDistinct : Nat → List Nat → Nat → List Nat × Nat
  | 0, _, s => ([], s)
  | k + 1, avail, s =>
      if avail.isEmpty then ([], s)
      else
        let (i, s') := randBelow s avail.length
        let (rest, s'') := drawDistinct k (avail.eraseIdx i) s'
        (avail.getD i 0 :: rest, s'')

/-- Modelled from the spec: tournament selection — the lowest-penalty
chromosome among `k` drawn without replacement (§4.3). -/
def tournamentSelect (cfg : GAConfig) (dm : DomainModel) (pop : List Chromosome) (s : Nat) :
    Chromosome × Nat :=
  let (idxs, s') := drawDistinct cfg.tournament (List.range pop.length) s
  let contestants := idxs.map (fun i => pop.getD i [])
  ((bestOf cfg dm contestants).1, s')

/-- Modelled from the spec: single-point crossover with configured
probability, cut point uniform in `[1, L-1]`; otherwise parent A is
cloned (§4.3). -/
def crossover (cfg : GAConfig) (a b : Chromosome) (s : Nat) : Chromosome × Nat :=
  let (roll, s') := randBelow s 100
  if roll < cfg.crossoverPct ∧ 2 ≤ a.length then
    let (cutRaw, s'') := randBelow s' (a.length - 1)
    let cut := cutRaw + 1
    (a.take cut ++ b.drop cut, s'')
  else (a, s')

/-- Modelled from the spec: per-gene mutation — with configured
probability the gene's `(slot, room)` is redrawn as at initialization
(§4.3). -/
def mutate (cfg : GAConfig) (dm : DomainModel) : Chromosome → Nat → Chromosome × Nat
  | [], s => ([], s)
  | g :: gs, s =>
      let (roll, s') := randBelow s 100
      let (g', s'') :=
        if roll < cfg.mutationPct then
          let (p, s2) := pickCandidate dm (courseAt dm g.course) s'
          (⟨g.course, p.1, p.2⟩, s2)
        else (g, s')
      let (rest, s3) := mutate cfg dm gs s''
      (g' :: rest, s3)

/-- One offspring: select two parents, cross, mutate (§4.4). -/
def makeChild (cfg : GAConfig) (dm : DomainModel) (pop : List Chromosome) (s : Nat) :
    Chromosome × Nat :=
  let (pa, s1) := tournamentSelect cfg dm pop s
  let (pb, s2) := tournamentSelect cfg dm pop s1
  let (child, s3) := crossover cfg pa pb s2
  mutate cfg dm child s3

/-- `n` offspring in sequence. -/
def makeChildren (cfg : GAConfig) (dm : DomainModel) (pop : List Chromosome) :
    Nat → Nat → List Chromosome × Nat
  | 0, s => ([], s)
  | n + 1, s =>
      let (c, s') := makeChild cfg dm pop s
      let (rest, s'') := makeChildren cfg dm pop n s'
      (c :: rest, s'')

/-- Modelled from the spec: the population manager's per-run state — the
explicit best-so-far value threaded through the state transitions rather
than ambient globals (§4.4, §9). -/
structure GAState where
  gen : Nat
  pop : List Chromosome
  best : Chromosome
  bestPen : Nat
  sinceImprove : Nat
  rng : Nat
deriving DecidableEq, Repr

/-- `Initializing`: build and evaluate the first population, set
best-so-far (§4.4). -/
def initState (cfg : GAConfig) (dm : DomainModel) (seed : Nat) : GAState :=
  let (pop, s') := initPopulation dm cfg.popSize seed
  let (b, p) := bestOf cfg dm pop
  { gen := 0, pop := pop, best := b, bestPen := p, sinceImprove := 0, rng := s' }

/-- One `Evolving` generation: keep the elite, breed the rest, re-evaluate,
update best-so-far and the plateau counter (§4.4). -/
def stepGen (cfg : GAConfig) (dm : DomainModel) (st : GAState) : GAState :=
  let (children, s') := makeChildren cfg dm st.pop (cfg.popSize - 1) st.rng
  let newPop := st.best :: children
  let (b, p) := bestOf cfg dm newPop
  if p < st.bestPen then
    { gen := st.gen + 1, pop := newPop, best := b, bestPen := p, sinceImprove := 0, rng := s' }
  else
    { gen := st.gen + 1, pop := newPop, best := st.best, bestPen := st.bestPen,
      sinceImprove := st.sinceImprove + 1, rng := s' }

/-- Modelled from the spec: the convergence controller — stop at the
generation cap, at penalty zero, or on a plateau (§4.5). -/
def converged (cfg : GAConfig) (st : GAState) : Bool :=
  decide (cfg.maxGen ≤ st.gen) || decide (st.bestPen = 0) ||
    decide (cfg.patience ≤ st.sinceImprove)

/-- Modelled from the spec: the whole search as a run relation — from a
state, either the controller reports convergence and the best-so-far
chromosome is extracted, or one more generation is evolved (§4.4). -/
inductive RunsTo (cfg : GAConfig) (dm : DomainModel) : GAState → Chromosome → Prop
  | done (st : GAState) (h : converged cfg st = true) : RunsTo cfg dm st st.best
  | step (st : GAState) (c : Chromosome) (h : converged cfg st = false)
      (next : RunsTo cfg dm (stepGen cfg dm st) c) : RunsTo cfg dm st c

/-- A one-course, one-room, one-slot domain for exercising the engine. -/
def dm0 : DomainModel :=
  { courses := [⟨"C1", "F1", "G1", 1, "LectureHall", 30⟩]
    rooms := [⟨"R1", "LectureHall", 40⟩]
    slots := [⟨"Mon", 0, true⟩] }

/-- A configuration whose generation cap is already reached at
initialization. -/
def cfg0 : GAConfig :=
  { popSize := 2, maxGen := 0, tournament := 2, crossoverPct := 60, mutationPct := 10
    patience := 5, wFaculty := 10, wRoom := 10, wGroup := 10, wType := 3, wCapacity := 3, wSlot := 10 }

end TimetableGA.GA

namespace TimetableGA

/-! ## Helper lemmas -/

theorem length_insertByKey {α : Type} (key : α → Nat) (a : α) (l : List α) :
    (insertByKey key a l).length = l.length + 1 := by
  induction l with
  | nil => rfl
  | cons b l ih =>
      unfold insertByKey
      split
      · simp
      · simp [ih]

theorem length_sortByKey {α : Type} (key : α → Nat) (l : List α) :
    (sortByKey key l).length = l.length := by
  induction l with
  | nil => rfl
  | cons a l ih => simp [sortByKey, length_insertByKey, ih]

theorem mem_insertByKey {α : Type} (key : α → Nat) (a x : α) (l : List α) :
    x ∈ insertByKey key a l ↔ x = a ∨ x ∈ l := by
  induction l with
  | nil => simp [insertByKey]
  | cons b l ih =>
      unfold insertByKey
      split
      · simp
      · simp [ih]
        tauto

theorem pairwise_insertByKey {α : Type} (key : α → Nat) (a : α) (l : List α)
    (h : l.Pairwise (fun x y => key x ≤ key y)) :
    (insertByKey key a l).Pairwise (fun x y => key x ≤ key y) := by
  induction l with
  | nil => simp [insertByKey]
  | cons b l ih =>
      rw [List.pairwise_cons] at h
      unfold insertByKey
      split
      · rw [List.pairwise_cons]
        refine ⟨?_, List.pairwise_cons.2 h⟩
        intro y hy
        rcases List.mem_cons.1 hy with rfl | hy
        · assumption
        · exact le_trans (by assumption) (h.1 y hy)
      · rw [List.pairwise_cons]
        refine ⟨?_, ih h.2⟩
        intro y hy
        rcases (mem_insertByKey key a y l).1 hy with rfl | hy
        · omega
        · exact h.1 y hy

theorem pairwise_sortByKey {α : Type} (key : α → Nat) (l : List α) :
    (sortByKey key l).Pairwise (fun x y => key x ≤ key y) := by
  induction l with
  | nil => simp [sortByKey]
  | cons a l ih => exact pairwise_insertByKey key a _ ih

/-! ## C1 / C9: `serializeSlots` -/

theorem dayLineFields_indices (rows : List SlotRow) (d : String) :
    (dayLineFields rows d).map (fun f => f[2]?) =
      (List.range (dayBlocks rows d).length).map (fun i => some (Nat.repr i)) := by
  unfold dayLineFields
  rw [List.map_map]
  have h1 : ((fun f : List String => f[2]?) ∘ fun p : Nat × SlotBlock => slotLineFields d p.1 p.2)
      = (fun i => some (Nat.repr i)) ∘ Prod.fst := by
    funext p; rfl
  rw [h1, ← List.map_map, List.enum_map_fst, length_sortByKey]

theorem serializeSlots_of_ne_nil (rows : List SlotRow) (h : rows ≠ []) :
    serializeSlots rows = some (String.intercalate "\n"
      ("day,slot_index,start_time,end_time,type" ::
        (serializeSlotsDataFields rows).map (String.intercalate ","))) := by
  have he : rows.isEmpty = false := by
    cases rows with
    | nil => exact absurd rfl h
    | cons a l => rfl
  simp [serializeSlots, he]

/-- **C1.** For every non-empty slots table, `serializeSlots` emits its
lines grouped by (trimmed, non-empty) day; within each day the emitted
`slot_index` fields are exactly `0, 1, ..., n-1` in order, and the
blocks they number are sorted by ascending start time under the key
`timeToMinutes(start) ?? 0` — a start that does not parse as `H:MM` /
`HH:MM` sorts as minute `0`. -/
theorem serializeSlots_day_indices (rows : List SlotRow) (h : rows ≠ [])
    (d : String) (hd : d ∈ dayKeys rows) :
    serializeSlots rows = some (String.intercalate "\n"
      ("day,slot_index,start_time,end_time,type" ::
        (serializeSlotsDataFields rows).map (String.intercalate ","))) ∧
    (dayLineFields rows d).map (fun f => f[2]?) =
      (List.range (dayBlocks rows d).length).map (fun i => some (Nat.repr i)) ∧
    ((sortByKey blockKey (dayBlocks rows d)).map blockKey).Sorted (· ≤ ·) ∧
    (∀ f ∈ dayLineFields rows d, f ∈ serializeSlotsDataFields rows) := by
  refine ⟨serializeSlots_of_ne_nil rows h, dayLineFields_indices rows d, ?_, ?_⟩
  · rw [List.Sorted, List.pairwise_map]
    exact pairwise_sortByKey blockKey (dayBlocks rows d)
  · intro f hf
    exact List.mem_flatMap.2 ⟨d, hd, hf⟩

/-- Witness for **C1** on a two-row Monday table entered out of time
order. -/
theorem serializeSlots_day_indices_witness :
    (([⟨"Mon", "10:00", "11:00", "Class"⟩, ⟨"Mon", "09:00", "10:00", "Class"⟩] : List SlotRow) ≠ []) ∧
    "Mon" ∈ dayKeys [⟨"Mon", "10:00", "11:00", "Class"⟩, ⟨"Mon", "09:00", "10:00", "Class"⟩] ∧
    (serializeSlots [⟨"Mon", "10:00", "11:00", "Class"⟩, ⟨"Mon", "09:00", "10:00", "Class"⟩] =
      some (String.intercalate "\n"
        ("day,slot_index,start_time,end_time,type" ::
          (serializeSlotsDataFields
              [⟨"Mon", "10:00", "11:00", "Class"⟩, ⟨"Mon", "09:00", "10:00", "Class"⟩]).map
            (String.intercalate ","))) ∧
    (dayLineFields [⟨"Mon", "10:00", "11:00", "Class"⟩, ⟨"Mon", "09:00", "10:00", "Class"⟩] "Mon").map
        (fun f => f[2]?) =
      (List.range (dayBlocks [⟨"Mon", "10:00", "11:00", "Class"⟩, ⟨"Mon", "09:00", "10:00", "Class"⟩]
          "Mon").length).map (fun i => some (Nat.repr i)) ∧
    ((sortByKey blockKey (dayBlocks
        [⟨"Mon", "10:00", "11:00", "Class"⟩, ⟨"Mon", "09:00", "10:00", "Class"⟩] "Mon")).map
        blockKey).Sorted (· ≤ ·) ∧
    (∀ f ∈ dayLineFields [⟨"Mon", "10:00", "11:00", "Class"⟩, ⟨"Mon", "09:00", "10:00", "Class"⟩] "Mon",
      f ∈ serializeSlotsDataFields
        [⟨"Mon", "10:00", "11:00", "Class"⟩, ⟨"Mon", "09:00", "10:00", "Class"⟩])) :=
  ⟨by decide, by decide,
    serializeSlots_day_indices _ (by decide) "Mon" (by decide)⟩

/-- **C9.** For every non-empty slots table the CSV built by
`serializeSlots` declares five header columns but every data line is the
comma-join of six fields: a generated slot id `<lowercased day>-<index>`
prepended before the day, then the day, index, start, end and type. -/
theorem serializeSlots_header_data_mismatch (rows : List SlotRow) (h : rows ≠ []) :
    slotsHeaderFields.length = 5 ∧
    "day,slot_index,start_time,end_time,type" = String.intercalate "," slotsHeaderFields ∧
    serializeSlots rows = some (String.intercalate "\n"
      (String.intercalate "," slotsHeaderFields ::
        (serializeSlotsDataFields rows).map (String.intercalate ","))) ∧
    ∀ f ∈ serializeSlotsDataFields rows, f.length = slotsHeaderFields.length + 1 ∧
      ∃ d i b, d ∈ dayKeys rows ∧ f = slotLineFields d i b ∧
        f[0]? = some (jsToLower d ++ "-" ++ Nat.repr i) ∧ f[1]? = some d := by
  refine ⟨rfl, by decide, ?_, ?_⟩
  · rw [serializeSlots_of_ne_nil rows h]
    congr 2
  · intro f hf
    rcases List.mem_flatMap.1 hf with ⟨d, hd, hfd⟩
    rcases List.mem_map.1 hfd with ⟨p, _, hp⟩
    subst hp
    exact ⟨rfl, d, p.1, p.2, hd, rfl, rfl, rfl⟩

/-- Witness for **C9** on a one-row table: header `5` fields, the single
data line `mon-0,Mon,0,09:00,10:00,Class` carries `6`. -/
theorem serializeSlots_header_data_mismatch_witness :
    (([⟨"Mon", "09:00", "10:00", "Class"⟩] : List SlotRow) ≠ []) ∧
    (slotsHeaderFields.length = 5 ∧
    "day,slot_index,start_time,end_time,type" = String.intercalate "," slotsHeaderFields ∧
    serializeSlots [⟨"Mon", "09:00", "10:00", "Class"⟩] = some (String.intercalate "\n"
      (String.intercalate "," slotsHeaderFields ::
        (serializeSlotsDataFields [⟨"Mon", "09:00", "10:00", "Class"⟩]).map
          (String.intercalate ","))) ∧
    ∀ f ∈ serializeSlotsDataFields [⟨"Mon", "09:00", "10:00", "Class"⟩],
      f.length = slotsHeaderFields.length + 1 ∧
      ∃ d i b, d ∈ dayKeys [⟨"Mon", "09:00", "10:00", "Class"⟩] ∧ f = slotLineFields d i b ∧
        f[0]? = some (jsToLower d ++ "-" ++ Nat.repr i) ∧ f[1]? = some d) :=
  ⟨by decide, serializeSlots_header_data_mismatch _ (by decide)⟩

/-! ## C6: `addHolidayForDay` -/

/-- **C6 (counterexample).** The claim reads removal as literal
case-insensitive equality of the row's Day field with the given day.  The
code trims the row's Day first: for the table `[{day: " mon "}]` and the
call `addHolidayForDay("Mon")`, the row's Day `" mon "` is not
case-insensitively equal to `"Mon"`, so per the claim it belongs to
another day and must be left unchanged — yet the code removes it. -/
theorem addHolidayForDay_counterexample :
    jsToLower " mon " ≠ jsToLower "Mon" ∧
    (⟨" mon ", "09:00", "10:00", "Class"⟩ : SlotRow) ∉
      addHolidayForDay "Mon" [⟨" mon ", "09:00", "10:00", "Class"⟩] ∧
    addHolidayForDay "Mon" [⟨" mon ", "09:00", "10:00", "Class"⟩] = [holidayRow "Mon"] := by
  decide

/-- **C6 (amended).** For every day argument equal to its own trim (as at
every call site) and every slots table, `addHolidayForDay day` removes
exactly the rows whose *trimmed* Day field equals `day` case-insensitively
and appends one Holiday row for `day`; afterwards the rows whose trimmed
Day equals `day` case-insensitively are exactly that one Holiday row,
while all other rows are unchanged and in their original order. -/
theorem addHolidayForDay_spec (day : String) (rows : List SlotRow)
    (h : jsTrim day = day) :
    addHolidayForDay day rows =
      rows.filter (fun r => !(jsToLower (jsTrim r.day) == jsToLower day)) ++ [holidayRow day] ∧
    (addHolidayForDay day rows).filter
        (fun r => jsToLower (jsTrim r.day) == jsToLower day) = [holidayRow day] ∧
    (holidayRow day).type_ = "Holiday" := by
  refine ⟨rfl, ?_, rfl⟩
  unfold addHolidayForDay
  rw [List.filter_append, List.filter_filter]
  have h1 : rows.filter (fun r =>
      (jsToLower (jsTrim r.day) == jsToLower day) && !(jsToLower (jsTrim r.day) == jsToLower day)) = [] := by
    apply List.filter_eq_nil_iff.2
    intro r _
    cases jsToLower (jsTrim r.day) == jsToLower day <;> simp
  rw [h1]
  simp [holidayRow, h]

/-- Witness for **C6 (amended)**: marking Monday as holiday in a table
holding one Tuesday row. -/
theorem addHolidayForDay_spec_witness :
    jsTrim "Mon" = "Mon" ∧
    (addHolidayForDay "Mon" [⟨"Tue", "09:00", "10:00", "Class"⟩] =
      ([⟨"Tue", "09:00", "10:00", "Class"⟩] : List SlotRow).filter
        (fun r => !(jsToLower (jsTrim r.day) == jsToLower "Mon")) ++ [holidayRow "Mon"] ∧
    (addHolidayForDay "Mon" [⟨"Tue", "09:00", "10:00", "Class"⟩]).filter
        (fun r => jsToLower (jsTrim r.day) == jsToLower "Mon") = [holidayRow "Mon"] ∧
    (holidayRow "Mon").type_ = "Holiday") :=
  ⟨by decide, addHolidayForDay_spec "Mon" _ (by decide)⟩

/-! ## Validation helper characterizations (C2-C5) -/

theorem countErrOf_iff (v : String) :
    countErrOf v = true ↔ v = "" ∨ ∃ n, jsParseInt v = some n ∧ n < 1 := by
  unfold countErrOf
  rcases h : jsParseInt v with _ | n <;> simp [h]

theorem dupAt_iff (vals : List String) (i : Nat) (v : String) :
    dupAt vals i v = true ↔ ∃ j, j ≠ i ∧ vals[j]? = some v := by
  unfold dupAt
  rw [List.any_eq_true]
  constructor
  · rintro ⟨p, hp, hc⟩
    rw [List.mem_enum_iff_getElem?] at hp
    simp only [Bool.and_eq_true, bne_iff_ne, beq_iff_eq] at hc
    exact ⟨p.1, hc.1, hc.2 ▸ hp⟩
  · rintro ⟨j, hj, hv⟩
    exact ⟨(j, v), List.mem_enum_iff_getElem?.2 hv, by simp [hj]⟩

theorem dupAt_map_iff {α : Type} (g : α → String) (rows : List α) (i : Nat) (v : String) :
    dupAt (rows.map g) i v = true ↔ ∃ j r, j ≠ i ∧ rows[j]? = some r ∧ g r = v := by
  rw [dupAt_iff]
  constructor
  · rintro ⟨j, hj, hv⟩
    rw [List.getElem?_map] at hv
    rcases Option.map_eq_some'.1 hv with ⟨r, hr, hg⟩
    exact ⟨j, r, hj, hr, hg⟩
  · rintro ⟨j, r, hj, hr, hg⟩
    refine ⟨j, hj, ?_⟩
    rw [List.getElem?_map, hr]
    simpa using hg

theorem contains_filterMap_iff {α : Type} (g : α → String) (rows : List α) (v : String)
    (hv : v ≠ "") :
    (rows.filterMap (fun r => if g r = "" then none else some (g r))).contains v = true ↔
      ∃ r ∈ rows, g r = v := by
  rw [List.elem_iff, List.mem_filterMap]
  constructor
  · rintro ⟨r, hr, hsome⟩
    by_cases hg : g r = ""
    · rw [if_pos hg] at hsome
      exact absurd hsome (by simp)
    · rw [if_neg hg] at hsome
      exact ⟨r, hr, Option.some.inj hsome⟩
  · rintro ⟨r, hr, hg⟩
    refine ⟨r, hr, ?_⟩
    rw [if_neg (by rw [hg]; exact hv), hg]

theorem validateFacultyRows_getElem (rows : List FacultyRow) (i : Nat) :
    (validateFacultyRows rows)[i]? = (rows[i]?).map (fun r =>
      ({ idErr := jsTrim r.id == "" || dupAt (rows.map fun r' => jsTrim r'.id) i (jsTrim r.id)
         nameErr := jsTrim r.name == "" } : FacultyMarks)) := by
  unfold validateFacultyRows
  rw [List.getElem?_map, List.getElem?_enum, Option.map_map]
  rfl

theorem validateRoomRows_getElem (rows : List RoomRow) (i : Nat) :
    (validateRoomRows rows)[i]? = (rows[i]?).map (fun r =>
      ({ idErr := jsTrim r.id == "" || dupAt (rows.map fun r' => jsTrim r'.id) i (jsTrim r.id)
         typeErr := jsTrim r.type_ == ""
         capacityErr := countErrOf (jsTrim r.capacity) } : RoomMarks)) := by
  unfold validateRoomRows
  rw [List.getElem?_map, List.getElem?_enum, Option.map_map]
  rfl

theorem validateCourseRows_getElem (facultyIds roomTypes : List String)
    (rows : List CourseRow) (i : Nat) :
    (validateCourseRows facultyIds roomTypes rows)[i]? = (rows[i]?).map (fun r =>
      ({ codeErr := jsTrim r.code == "" || dupAt (rows.map fun r' => jsTrim r'.code) i (jsTrim r.code)
         ltpErr := jsTrim r.ltp == "" || !ltpFormatOk (jsTrim r.ltp)
         facultyIdErr := jsTrim r.facultyId == "" || !(facultyIds.contains (jsTrim r.facultyId))
         studentGroupErr := jsTrim r.studentGroup == ""
         studentCountErr := countErrOf (jsTrim r.studentCount)
         lecRoomTypeErr := jsTrim r.lecRoomType == "" || !(roomTypes.contains (jsTrim r.lecRoomType))
         labRoomTypeErr := jsTrim r.labRoomType == "" || !(roomTypes.contains (jsTrim r.labRoomType)) } : CourseMarks)) := by
  unfold validateCourseRows
  rw [List.getElem?_map, List.getElem?_enum, Option.map_map]
  rfl

theorem facultyMarks_char (s : ManualState) (i : Nat) (r : FacultyRow)
    (h : s.faculty[i]? = some r) :
    ∃ m, (realtimeValidate s).faculty[i]? = some m ∧
      (m.idErr = true ↔ (jsTrim r.id = "" ∨
        ∃ j r', j ≠ i ∧ s.faculty[j]? = some r' ∧ jsTrim r'.id = jsTrim r.id)) ∧
      (m.nameErr = true ↔ jsTrim r.name = "") := by
  have hm := validateFacultyRows_getElem s.faculty i
  rw [h] at hm
  refine ⟨_, hm, ?_, ?_⟩
  · simp only [Bool.or_eq_true, beq_iff_eq, dupAt_map_iff]
  · simp only [beq_iff_eq]

theorem notContains_iff {α : Type} (g : α → String) (rows : List α) (v : String)
    (hv : v ≠ "") :
    (!(rows.filterMap (fun r => if g r = "" then none else some (g r))).contains v) = true ↔
      ¬ ∃ r ∈ rows, g r = v := by
  rw [Bool.not_eq_true', ← Bool.not_eq_true]
  exact not_congr (contains_filterMap_iff g rows v hv)

theorem roomMarks_char (s : ManualState) (i : Nat) (r : RoomRow)
    (h : s.rooms[i]? = some r) :
    ∃ m, (realtimeValidate s).rooms[i]? = some m ∧
      (m.idErr = true ↔ (jsTrim r.id = "" ∨
        ∃ j r', j ≠ i ∧ s.rooms[j]? = some r' ∧ jsTrim r'.id = jsTrim r.id)) ∧
      (m.typeErr = true ↔ jsTrim r.type_ = "") ∧
      (m.capacityErr = true ↔ (jsTrim r.capacity = "" ∨
        ∃ n, jsParseInt (jsTrim r.capacity) = some n ∧ n < 1)) := by
  have hm := validateRoomRows_getElem s.rooms i
  rw [h] at hm
  refine ⟨_, hm, ?_, ?_, ?_⟩
  · simp only [Bool.or_eq_true, beq_iff_eq, dupAt_map_iff]
  · simp only [beq_iff_eq]
  · exact countErrOf_iff _

theorem courseMarks_char (s : ManualState) (i : Nat) (r : CourseRow)
    (h : s.courses[i]? = some r) :
    ∃ m, (realtimeValidate s).courses[i]? = some m ∧
      (m.codeErr = true ↔ (jsTrim r.code = "" ∨
        ∃ j r', j ≠ i ∧ s.courses[j]? = some r' ∧ jsTrim r'.code = jsTrim r.code)) ∧
      (m.ltpErr = true ↔ (jsTrim r.ltp = "" ∨ ltpFormatOk (jsTrim r.ltp) = false)) ∧
      (m.facultyIdErr = true ↔ (jsTrim r.facultyId = "" ∨
        ¬ ∃ f ∈ s.faculty, jsTrim f.id = jsTrim r.facultyId)) ∧
      (m.studentGroupErr = true ↔ jsTrim r.studentGroup = "") ∧
      (m.studentCountErr = true ↔ (jsTrim r.studentCount = "" ∨
        ∃ n, jsParseInt (jsTrim r.studentCount) = some n ∧ n < 1)) ∧
      (m.lecRoomTypeErr = true ↔ (jsTrim r.lecRoomType = "" ∨
        ¬ ∃ rr ∈ s.rooms, jsTrim rr.type_ = jsTrim r.lecRoomType)) ∧
      (m.labRoomTypeErr = true ↔ (jsTrim r.labRoomType = "" ∨
        ¬ ∃ rr ∈ s.rooms, jsTrim rr.type_ = jsTrim r.labRoomType)) := by
  have hm := validateCourseRows_getElem (facultyIdsOf s) (roomTypesOf s) s.courses i
  rw [h] at hm
  refine ⟨_, hm, ?_, ?_, ?_, ?_, ?_, ?_, ?_⟩
  · simp only [Bool.or_eq_true, beq_iff_eq, dupAt_map_iff]
  · simp only [Bool.or_eq_true, beq_iff_eq, Bool.not_eq_true']
  · by_cases hf : jsTrim r.facultyId = ""
    · simp [hf]
    · simp only [Bool.or_eq_true, beq_iff_eq, hf, false_or]
      exact notContains_iff (fun f => jsTrim f.id) s.faculty _ hf
  · simp only [beq_iff_eq]
  · exact countErrOf_iff _
  · by_cases hl : jsTrim r.lecRoomType = ""
    · simp [hl]
    · simp only [Bool.or_eq_true, beq_iff_eq, hl, false_or]
      exact notContains_iff (fun rr => jsTrim rr.type_) s.rooms _ hl
  · by_cases hl : jsTrim r.labRoomType = ""
    · simp [hl]
    · simp only [Bool.or_eq_true, beq_iff_eq, hl, false_or]
      exact notContains_iff (fun rr => jsTrim rr.type_) s.rooms _ hl

/-! ## C2-C5: the validation claims -/

theorem validateManualData_false_iff (s : ManualState) :
    validateManualData s = false ↔
      ((∃ m ∈ (realtimeValidate s).faculty, facultyMarked m = true) ∨
       (∃ m ∈ (realtimeValidate s).rooms, roomMarked m = true) ∨
       (∃ m ∈ (realtimeValidate s).courses, courseMarked m = true) ∨
       (∃ m ∈ (realtimeValidate s).slots, slotMarked m = true)) := by
  unfold validateManualData hasAnyError
  simp only [Bool.not_eq_false', Bool.or_eq_true, List.any_eq_true]
  rw [or_assoc, or_assoc]

/-- **C2.** A single `realtimeValidate` pass marks every offending input
of every row of every table — duplicate and empty ids and codes looking
across all rows, malformed L-T-P, dangling faculty references, missing
groups, invalid counts, unknown room types — and `validateManualData`
returns `false` exactly when at least one input somewhere carries the
error mark. -/
theorem realtimeValidate_marks_every_row (s : ManualState) :
    (∀ (i : Nat) (r : FacultyRow), s.faculty[i]? = some r →
      ∃ m, (realtimeValidate s).faculty[i]? = some m ∧
        (m.idErr = true ↔ (jsTrim r.id = "" ∨
          ∃ (j : Nat) (r' : FacultyRow), j ≠ i ∧ s.faculty[j]? = some r' ∧ jsTrim r'.id = jsTrim r.id)) ∧
        (m.nameErr = true ↔ jsTrim r.name = "")) ∧
    (∀ (i : Nat) (r : RoomRow), s.rooms[i]? = some r →
      ∃ m, (realtimeValidate s).rooms[i]? = some m ∧
        (m.idErr = true ↔ (jsTrim r.id = "" ∨
          ∃ (j : Nat) (r' : RoomRow), j ≠ i ∧ s.rooms[j]? = some r' ∧ jsTrim r'.id = jsTrim r.id)) ∧
        (m.typeErr = true ↔ jsTrim r.type_ = "") ∧
        (m.capacityErr = true ↔ (jsTrim r.capacity = "" ∨
          ∃ n, jsParseInt (jsTrim r.capacity) = some n ∧ n < 1))) ∧
    (∀ (i : Nat) (r : CourseRow), s.courses[i]? = some r →
      ∃ m, (realtimeValidate s).courses[i]? = some m ∧
        (m.codeErr = true ↔ (jsTrim r.code = "" ∨
          ∃ (j : Nat) (r' : CourseRow), j ≠ i ∧ s.courses[j]? = some r' ∧ jsTrim r'.code = jsTrim r.code)) ∧
        (m.ltpErr = true ↔ (jsTrim r.ltp = "" ∨ ltpFormatOk (jsTrim r.ltp) = false)) ∧
        (m.facultyIdErr = true ↔ (jsTrim r.facultyId = "" ∨
          ¬ ∃ f ∈ s.faculty, jsTrim f.id = jsTrim r.facultyId)) ∧
        (m.studentGroupErr = true ↔ jsTrim r.studentGroup = "") ∧
        (m.studentCountErr = true ↔ (jsTrim r.studentCount = "" ∨
          ∃ n, jsParseInt (jsTrim r.studentCount) = some n ∧ n < 1)) ∧
        (m.lecRoomTypeErr = true ↔ (jsTrim r.lecRoomType = "" ∨
          ¬ ∃ rr ∈ s.rooms, jsTrim rr.type_ = jsTrim r.lecRoomType)) ∧
        (m.labRoomTypeErr = true ↔ (jsTrim r.labRoomType = "" ∨
          ¬ ∃ rr ∈ s.rooms, jsTrim rr.type_ = jsTrim r.labRoomType))) ∧
    (validateManualData s = false ↔
      ((∃ m ∈ (realtimeValidate s).faculty, facultyMarked m = true) ∨
       (∃ m ∈ (realtimeValidate s).rooms, roomMarked m = true) ∨
       (∃ m ∈ (realtimeValidate s).courses, courseMarked m = true) ∨
       (∃ m ∈ (realtimeValidate s).slots, slotMarked m = true))) :=
  ⟨fun i r h => facultyMarks_char s i r h,
   fun i r h => roomMarks_char s i r h,
   fun i r h => courseMarks_char s i r h,
   validateManualData_false_iff s⟩

/-- Witness for **C2**: the faculty row of the consistent state `stA`. -/
theorem realtimeValidate_marks_every_row_witness :
    ∃ m, (realtimeValidate stA).faculty[0]? = some m ∧
      (m.idErr = true ↔ (jsTrim (FacultyRow.mk "F1" "Ada").id = "" ∨
        ∃ j r', j ≠ 0 ∧ stA.faculty[j]? = some r' ∧
          jsTrim r'.id = jsTrim (FacultyRow.mk "F1" "Ada").id)) ∧
      (m.nameErr = true ↔ jsTrim (FacultyRow.mk "F1" "Ada").name = "") :=
  (realtimeValidate_marks_every_row stA).1 0 ⟨"F1", "Ada"⟩ rfl

/-- **C3 (counterexample).** `0-0-0` is non-empty, matches the
digits-digits-digits format, parses to the all-zero session counts, yet
the course row of `stB` carrying it is left unmarked — the claim's
"all three counts are zero" arm is not enforced. -/
theorem ltp_all_zero_unmarked :
    jsTrim "0-0-0" ≠ "" ∧ ltpFormatOk (jsTrim "0-0-0") = true ∧
    ltpCounts "0-0-0" = some (0, 0, 0) ∧
    ((realtimeValidate stB).courses.map CourseMarks.ltpErr) = [false] := by
  decide

/-- **C3 (amended).** For every course row, the L-T-P input is marked as
an error exactly when its trimmed value is empty or not of the form
digits-digits-digits; an all-zero `0-0-0` satisfies the format check and
is accepted (the spec's "at least one session type > 0" is not enforced
by this validation). -/
theorem course_ltp_mark_iff (s : ManualState) (i : Nat) (r : CourseRow)
    (h : s.courses[i]? = some r) :
    ∃ m, (realtimeValidate s).courses[i]? = some m ∧
      (m.ltpErr = true ↔ (jsTrim r.ltp = "" ∨ ltpFormatOk (jsTrim r.ltp) = false)) := by
  rcases courseMarks_char s i r h with ⟨m, hm, _, hltp, _⟩
  exact ⟨m, hm, hltp⟩

/-- Witness for **C3 (amended)**: the `0-0-0` course row of `stB` is not
marked. -/
theorem course_ltp_mark_iff_witness :
    ∃ m, (realtimeValidate stB).courses[0]? = some m ∧
      (m.ltpErr = true ↔
        (jsTrim (CourseRow.mk "CS101" "0-0-0" "F1" "G1" "60" "LectureHall" "LectureHall").ltp = "" ∨
          ltpFormatOk (jsTrim (CourseRow.mk "CS101" "0-0-0" "F1" "G1" "60" "LectureHall" "LectureHall").ltp) = false)) :=
  course_ltp_mark_iff stB 0 ⟨"CS101", "0-0-0", "F1", "G1", "60", "LectureHall", "LectureHall"⟩ rfl

/-- **C4.** For every course row, the Faculty ID input is marked as an
error exactly when its trimmed value is empty or no faculty row's
trimmed id equals it (ids are compared after the whitespace trimming the
UI applies everywhere, including when serializing to the backend). -/
theorem course_faculty_ref_mark_iff (s : ManualState) (i : Nat) (r : CourseRow)
    (h : s.courses[i]? = some r) :
    ∃ m, (realtimeValidate s).courses[i]? = some m ∧
      (m.facultyIdErr = true ↔ (jsTrim r.facultyId = "" ∨
        ¬ ∃ f ∈ s.faculty, jsTrim f.id = jsTrim r.facultyId)) := by
  rcases courseMarks_char s i r h with ⟨m, hm, _, _, hfid, _⟩
  exact ⟨m, hm, hfid⟩

/-- Witness for **C4**: the course row of `stC` references the unknown
faculty id `F9`. -/
theorem course_faculty_ref_mark_iff_witness :
    ∃ m, (realtimeValidate stC).courses[0]? = some m ∧
      (m.facultyIdErr = true ↔
        (jsTrim (CourseRow.mk "CS101" "3-0-2" "F9" "G1" "60" "LectureHall" "LectureHall").facultyId = "" ∨
          ¬ ∃ f ∈ stC.faculty, jsTrim f.id =
            jsTrim (CourseRow.mk "CS101" "3-0-2" "F9" "G1" "60" "LectureHall" "LectureHall").facultyId)) :=
  course_faculty_ref_mark_iff stC 0 ⟨"CS101", "3-0-2", "F9", "G1", "60", "LectureHall", "LectureHall"⟩ rfl

/-- **C5.** For every room row, the capacity input is marked as an error
exactly when its trimmed value is empty or `parseInt` yields an integer
below `1` (a non-numeric value parses to `NaN` and is not marked); and a
room row added without an explicit capacity is created with capacity
value `1`. -/
theorem room_capacity_mark_iff (s : ManualState) (i : Nat) (r : RoomRow)
    (h : s.rooms[i]? = some r) :
    (∃ m, (realtimeValidate s).rooms[i]? = some m ∧
      (m.capacityErr = true ↔ (jsTrim r.capacity = "" ∨
        ∃ n, jsParseInt (jsTrim r.capacity) = some n ∧ n < 1))) ∧
    (addRoomRow "" "LectureHall" "").capacity = "1" := by
  rcases roomMarks_char s i r h with ⟨m, hm, _, _, hcap⟩
  exact ⟨⟨m, hm, hcap⟩, rfl⟩

/-- Witness for **C5**: the capacity-`0` room row of `stD` is marked. -/
theorem room_capacity_mark_iff_witness :
    ((∃ m, (realtimeValidate stD).rooms[0]? = some m ∧
      (m.capacityErr = true ↔ (jsTrim (RoomRow.mk "R1" "LectureHall" "0").capacity = "" ∨
        ∃ n, jsParseInt (jsTrim (RoomRow.mk "R1" "LectureHall" "0").capacity) = some n ∧ n < 1))) ∧
    (addRoomRow "" "LectureHall" "").capacity = "1") :=
  room_capacity_mark_iff stD 0 ⟨"R1", "LectureHall", "0"⟩ rfl

/-! ## C7: `downloadCsv` -/

/-- **C7.** `downloadCsv` produces the header line
`day,slot_index,start_time,end_time,course,class_type,student_group,faculty,room`
followed by exactly one comma-joined line per assignment, in the
assignments' original order, each line carrying the nine fields in that
order. -/
theorem downloadCsv_format (assignments : List Assignment) :
    downloadCsv assignments = String.intercalate "\n" (downloadCsvLines assignments) ∧
    (downloadCsvLines assignments).length = assignments.length + 1 ∧
    (downloadCsvLines assignments)[0]? =
      some "day,slot_index,start_time,end_time,course,class_type,student_group,faculty,room" ∧
    (∀ i, (downloadCsvLines assignments)[i + 1]? = (assignments[i]?).map csvLine) ∧
    (∀ a : Assignment, csvLine a = String.intercalate ","
      [a.day, a.slot_index, a.start_time, a.end_time, a.course, a.class_type,
        a.student_group, a.faculty, a.room]) := by
  refine ⟨rfl, by simp [downloadCsvLines], ?_, ?_, fun a => rfl⟩
  · show (downloadCsvLines assignments)[0]? = _
    rw [downloadCsvLines]
    simp only [List.getElem?_cons_zero]
    decide
  · intro i
    rw [downloadCsvLines]
    simp [List.getElem?_map]

end TimetableGA

namespace TimetableGA.GA

/-! ## C8: determinism of the seeded search -/

theorem runsTo_det {cfg : GAConfig} {dm : DomainModel} {s : GAState} {c1 : Chromosome}
    (h1 : RunsTo cfg dm s c1) : ∀ {c2 : Chromosome}, RunsTo cfg dm s c2 → c1 = c2 := by
  induction h1 with
  | done st h =>
      intro c2 h2
      cases h2 with
      | done _ _ => rfl
      | step _ _ h' _ => rw [h] at h'; exact Bool.noConfusion h'
  | step st c h next ih =>
      intro c2 h2
      cases h2 with
      | done _ h' => rw [h] at h'; exact Bool.noConfusion h'
      | step _ _ _ next2 => exact ih next2

/-- **C8.** Modelled from the spec (the backend search kernel is not in
the available sources): every run of the engine from the same domain
model, configuration and random seed — randomness entering only through
the explicit seeded generator threaded through the operators — converges
to the same best chromosome. -/
theorem ga_run_deterministic (cfg : GAConfig) (dm : DomainModel) (seed : Nat)
    (c1 c2 : Chromosome)
    (h1 : RunsTo cfg dm (initState cfg dm seed) c1)
    (h2 : RunsTo cfg dm (initState cfg dm seed) c2) : c1 = c2 :=
  runsTo_det h1 h2

/-- Witness for **C8**: two complete runs from seed `1` on `dm0`, both
ending in the initial (already converged) state, produce the same best
chromosome. -/
theorem ga_run_deterministic_witness :
    (initState cfg0 dm0 1).best = (initState cfg0 dm0 1).best :=
  ga_run_deterministic cfg0 dm0 1 _ _
    (RunsTo.done _ (by decide)) (RunsTo.done _ (by decide))

end TimetableGA.GA

namespace TimetableGA

/-! ## C10: `renderTimetable` on clashing assignments -/

theorem cellsFor_eq_filter (assignments : List Assignment) (d t : String) :
    cellsFor assignments d t =
      assignments.filter (fun a => decide (a.day = d ∧ a.start_time = t)) := by
  suffices h : ∀ acc, assignments.foldl
      (fun acc a => if a.day = d ∧ a.start_time = t then acc ++ [a] else acc) acc =
      acc ++ assignments.filter (fun a => decide (a.day = d ∧ a.start_time = t)) by
    simpa using h []
  induction assignments with
  | nil => intro acc; simp
  | cons a l ih =>
      intro acc
      simp only [List.foldl_cons, List.filter_cons]
      by_cases hc : a.day = d ∧ a.start_time = t
      · rw [if_pos hc, ih]
        simp [hc]
      · rw [if_neg hc, ih]
        simp [hc]

/-- **C10.** Whenever two assignments of the list share a day and a
start time, the rendered grid cell for that day and time shows only the
first assignment of the bucket — which is the first matching assignment
in list order — and the rest of the bucket (non-empty) is silently
omitted from the rendered cell. -/
theorem renderTimetable_clash_first_only (assignments : List Assignment)
    (a b : Assignment) (l1 l2 l3 : List Assignment)
    (hsplit : assignments = l1 ++ a :: (l2 ++ b :: l3))
    (hd : b.day = a.day) (ht : b.start_time = a.start_time) :
    ∃ c rest, cellsFor assignments a.day a.start_time = c :: rest ∧ rest ≠ [] ∧
      renderCell assignments a.day a.start_time = cellHtml c ∧
      assignments.filter
        (fun x => decide (x.day = a.day ∧ x.start_time = a.start_time)) = c :: rest := by
  have hcf := cellsFor_eq_filter assignments a.day a.start_time
  have hlen : 2 ≤ (assignments.filter
      (fun x => decide (x.day = a.day ∧ x.start_time = a.start_time))).length := by
    subst hsplit
    simp only [List.filter_append, List.filter_cons, decide_eq_true_eq, and_self, if_pos,
      List.length_append, List.length_cons, hd, ht]
    omega
  rcases hfe : assignments.filter
      (fun x => decide (x.day = a.day ∧ x.start_time = a.start_time)) with _ | ⟨c, rest⟩
  · rw [hfe] at hlen
    simp at hlen
  · rcases rest with _ | ⟨c2, rest2⟩
    · rw [hfe] at hlen
      simp at hlen
    · refine ⟨c, c2 :: rest2, ?_, by simp, ?_, hfe⟩
      · rw [hcf, hfe]
      · unfold renderCell
        rw [hcf, hfe]

/-- Witness for **C10**: two assignments both at Monday 09:00. -/
theorem renderTimetable_clash_first_only_witness :
    ∃ c rest, cellsFor
        [⟨"Mon", "0", "09:00", "10:00", "CS101", "Lecture", "G1", "F1", "R1"⟩,
         ⟨"Mon", "0", "09:00", "10:00", "MA201", "Lecture", "G1", "F2", "R2"⟩]
        "Mon" "09:00" = c :: rest ∧ rest ≠ [] ∧
      renderCell
        [⟨"Mon", "0", "09:00", "10:00", "CS101", "Lecture", "G1", "F1", "R1"⟩,
         ⟨"Mon", "0", "09:00", "10:00", "MA201", "Lecture", "G1", "F2", "R2"⟩]
        "Mon" "09:00" = cellHtml c ∧
      ([⟨"Mon", "0", "09:00", "10:00", "CS101", "Lecture", "G1", "F1", "R1"⟩,
        ⟨"Mon", "0", "09:00", "10:00", "MA201", "Lecture", "G1", "F2", "R2"⟩] : List Assignment).filter
        (fun x => decide (x.day = "Mon" ∧ x.start_time = "09:00")) = c :: rest :=
  renderTimetable_clash_first_only _
    ⟨"Mon", "0", "09:00", "10:00", "CS101", "Lecture", "G1", "F1", "R1"⟩
    ⟨"Mon", "0", "09:00", "10:00", "MA201", "Lecture", "G1", "F2", "R2"⟩
    [] [] [] rfl rfl rfl

end TimetableGA

namespace TimetableGA

example : timeToMinutes "9:05" = some 545 := by decide
example : timeToMinutes "10:30" = some 630 := by decide
example : timeToMinutes "130" = none := by decide
example : timeToMinutes "1:3" = none := by decide
example : jsParseInt "42" = some 42 := by decide
example : jsParseInt "-7" = some (-7) := by decide
example : jsParseInt "abc" = none := by decide
example : jsParseInt "0x10" = some 16 := by decide
example : jsParseInt "3cats" = some 3 := by decide
example : ltpFormatOk "3-0-2" = true := by decide
example : ltpFormatOk "0-0-0" = true := by decide
example : ltpFormatOk "3-0" = false := by decide
example : ltpFormatOk "3--2" = false := by decide
example : downloadCsv [] = "day,slot_index,start_time,end_time,course,class_type,student_group,faculty,room" := by decide

end TimetableGA
